import Mathlib

/-!
Verification of the Mindmap/Flash-card generator backend (`backend/server.py`)
against its natural-language specification.

The development shallowly embeds the backend's pure logic:
* the LLM-reply parser of `generate_flash_cards` (JSON-array extraction with a
  line-based fallback),
* the deck/card data model and deck construction,
* the export pipeline (`export_decks`, `export_to_json`, `export_to_csv`,
  `export_to_pdf`) including the `try/except` wrapping of HTTP errors,
* the `test_sutra_api` connectivity check and `get_all_decks` listing.

External collaborators (the Mongo store, the LLM endpoint, wall-clock time,
uuid generation) are passed in as explicit values, mirroring the spec's view
of them as opaque collaborators.
-/

namespace FlashServer

/-- Opening curly brace character (written via its code point to keep string
    handling uniform with the JSON grammar model). -/
def lbraceC : Char := Char.ofNat 123

/-- Closing curly brace character. -/
def rbraceC : Char := Char.ofNat 125

/-- JSON values as produced by Python's `json.loads`:
    objects keep their key/value pairs in textual order (duplicates included;
    lookups take the last binding, as a Python `dict` built left to right would).
    Numbers keep their raw lexeme, since the server never computes with them. -/
inductive Json where
  | null
  | bool (b : Bool)
  | num (raw : String)
  | str (s : String)
  | arr (xs : List Json)
  | obj (fields : List (String × Json))

/-- Whitespace accepted between JSON tokens (Python `json`: space, tab, LF, CR). -/
def jsonWs (c : Char) : Bool := c == ' ' || c == '\t' || c == '\n' || c == '\r'

/-- Skip inter-token whitespace. -/
def skipWs (cs : List Char) : List Char := cs.dropWhile jsonWs

/-- Value of a hexadecimal digit, if any. -/
def hexVal (c : Char) : Option Nat :=
  if '0' ≤ c ∧ c ≤ '9' then some (c.toNat - 48)
  else if 'a' ≤ c ∧ c ≤ 'f' then some (c.toNat - 87)
  else if 'A' ≤ c ∧ c ≤ 'F' then some (c.toNat - 55)
  else none

/-- Body of a JSON string literal (after the opening quote): standard escapes,
    `\uXXXX` code points, and a rejection of raw control characters, as in
    Python's strict `json.loads`. Returns the decoded string and the input
    remaining after the closing quote. -/
def pStrBody : List Char → List Char → Option (String × List Char)
  | acc, '"' :: rest => some (⟨acc.reverse⟩, rest)
  | acc, '\\' :: 'u' :: h1 :: h2 :: h3 :: h4 :: rest =>
    match hexVal h1, hexVal h2, hexVal h3, hexVal h4 with
    | some a, some b, some c, some d =>
      let n := ((a * 16 + b) * 16 + c) * 16 + d
      if h : n.isValidChar then pStrBody (Char.ofNatAux n h :: acc) rest
      else pStrBody ('�' :: acc) rest
    | _, _, _, _ => none
  | acc, '\\' :: e :: rest =>
    if e = '"' then pStrBody ('"' :: acc) rest
    else if e = '\\' then pStrBody ('\\' :: acc) rest
    else if e = '/' then pStrBody ('/' :: acc) rest
    else if e = 'b' then pStrBody ('\x08' :: acc) rest
    else if e = 'f' then pStrBody ('\x0c' :: acc) rest
    else if e = 'n' then pStrBody ('\n' :: acc) rest
    else if e = 'r' then pStrBody ('\r' :: acc) rest
    else if e = 't' then pStrBody ('\t' :: acc) rest
    else none
  | acc, c :: rest => if c.toNat < 32 then none else pStrBody (c :: acc) rest
  | _, [] => none

/-- Fractional part of a JSON number (empty if absent, `none` on `5.` style errors). -/
def pFrac : List Char → Option (List Char × List Char)
  | '.' :: r =>
    let ds := r.takeWhile Char.isDigit
    if ds.isEmpty then none else some ('.' :: ds, r.dropWhile Char.isDigit)
  | cs => some ([], cs)

/-- Exponent part of a JSON number (empty if absent, `none` on `1e` style errors). -/
def pExpo : List Char → Option (List Char × List Char)
  | c :: r =>
    if c = 'e' ∨ c = 'E' then
      let sr : List Char × List Char :=
        match r with
        | s :: r2 => if s = '+' ∨ s = '-' then ([s], r2) else ([], r)
        | [] => ([], r)
      let ds := sr.2.takeWhile Char.isDigit
      if ds.isEmpty then none else some (c :: (sr.1 ++ ds), sr.2.dropWhile Char.isDigit)
    else some ([], c :: r)
  | [] => some ([], [])

/-- JSON number lexeme: optional minus, integer part without leading zeros,
    optional fraction and exponent. The lexeme is kept verbatim. -/
def pNumLex (cs : List Char) : Option (Json × List Char) :=
  let nr : List Char × List Char :=
    match cs with
    | '-' :: r => (['-'], r)
    | _ => ([], cs)
  match nr.2 with
  | c :: _ =>
    if c.isDigit then
      let ir : List Char × List Char :=
        if c = '0' then (['0'], nr.2.tail)
        else (nr.2.takeWhile Char.isDigit, nr.2.dropWhile Char.isDigit)
      match pFrac ir.2 with
      | none => none
      | some (fr, rest2) =>
        match pExpo rest2 with
        | none => none
        | some (ex, rest3) => some (Json.num ⟨nr.1 ++ ir.1 ++ fr ++ ex⟩, rest3)
    else none
  | [] => none

mutual

/-- Parse one JSON value (fuel-indexed recursive descent). -/
def pVal : Nat → List Char → Option (Json × List Char)
  | 0, _ => none
  | Nat.succ f, cs =>
    match skipWs cs with
    | [] => none
    | c :: rest =>
      if c = lbraceC then pObjStart f rest
      else if c = '[' then pArrStart f rest
      else if c = '"' then
        match pStrBody [] rest with
        | some (s, r) => some (Json.str s, r)
        | none => none
      else if c = 't' then
        match rest with
        | 'r' :: 'u' :: 'e' :: r => some (Json.bool true, r)
        | _ => none
      else if c = 'f' then
        match rest with
        | 'a' :: 'l' :: 's' :: 'e' :: r => some (Json.bool false, r)
        | _ => none
      else if c = 'n' then
        match rest with
        | 'u' :: 'l' :: 'l' :: r => some (Json.null, r)
        | _ => none
      else pNumLex (c :: rest)

/-- Parse an array body, just after `[`. -/
def pArrStart : Nat → List Char → Option (Json × List Char)
  | 0, _ => none
  | Nat.succ f, cs =>
    match skipWs cs with
    | ']' :: rest => some (Json.arr [], rest)
    | _ => pArrRest f [] cs

/-- Parse the remaining comma-separated elements of a non-empty array. -/
def pArrRest : Nat → List Json → List Char → Option (Json × List Char)
  | 0, _, _ => none
  | Nat.succ f, acc, cs =>
    match pVal f cs with
    | none => none
    | some (v, rest) =>
      match skipWs rest with
      | ',' :: rest2 => pArrRest f (v :: acc) rest2
      | ']' :: rest2 => some (Json.arr (v :: acc).reverse, rest2)
      | _ => none

/-- Parse an object body, just after the opening brace. -/
def pObjStart : Nat → List Char → Option (Json × List Char)
  | 0, _ => none
  | Nat.succ f, cs =>
    match skipWs cs with
    | c :: rest => if c = rbraceC then some (Json.obj [], rest) else pObjRest f [] (c :: rest)
    | [] => none

/-- Parse the remaining comma-separated `key: value` members of a non-empty object. -/
def pObjRest : Nat → List (String × Json) → List Char → Option (Json × List Char)
  | 0, _, _ => none
  | Nat.succ f, acc, cs =>
    match skipWs cs with
    | '"' :: rest =>
      match pStrBody [] rest with
      | none => none
      | some (key, rest2) =>
        match skipWs rest2 with
        | ':' :: rest3 =>
          match pVal f rest3 with
          | none => none
          | some (v, rest4) =>
            match skipWs rest4 with
            | ',' :: rest5 => pObjRest f ((key, v) :: acc) rest5
            | r :: rest5 =>
              if r = rbraceC then some (Json.obj ((key, v) :: acc).reverse, rest5) else none
            | [] => none
        | _ => none
    | _ => none

end

/-- Model of Python's `json.loads`: parse one value, then require only
    whitespace to remain; `none` models a raised `json.JSONDecodeError`. -/
def json_loads (cs : List Char) : Option Json :=
  match pVal (cs.length * 4 + 16) cs with
  | some (j, rest) => if (skipWs rest).isEmpty then some j else none
  | none => none

/-! ## Python string helpers used by the server -/

/-- Characters removed by Python's `str.strip()` with no argument
    (ASCII whitespace; the server never strips other Unicode spaces). -/
def pyIsSpace (c : Char) : Bool :=
  c == ' ' || c == '\t' || c == '\n' || c == '\r' || c == '\x0b' || c == '\x0c'

/-- `str.strip()` on a character list. -/
def pyStripL (l : List Char) : List Char :=
  ((l.dropWhile pyIsSpace).reverse.dropWhile pyIsSpace).reverse

/-- `str.strip()`. -/
def pyStrip (s : String) : String := ⟨pyStripL s.data⟩

/-- `str.title()`: the first cased character of each alphabetic run is
    uppercased, the following ones lowercased (ASCII model). -/
def pyTitleGo : Bool → List Char → List Char
  | _, [] => []
  | prevCased, c :: rest =>
    if c.isAlpha then
      (if prevCased then c.toLower else c.toUpper) :: pyTitleGo true rest
    else c :: pyTitleGo false rest

/-- `str.title()`. -/
def pyTitle (s : String) : String := ⟨pyTitleGo false s.data⟩

/-- `str.lower()` (ASCII model; the server only compares against ASCII
    format names). -/
def pyLower (s : String) : String := ⟨s.data.map Char.toLower⟩

/-- `str.split('\n')`: every newline separates fields, so the result always
    has one more entry than there are newlines (`"" ↦ [""]`, `"a\n" ↦ ["a", ""]`). -/
def splitLines : List Char → List (List Char)
  | [] => [[]]
  | c :: rest =>
    let r := splitLines rest
    if c = '\n' then [] :: r
    else
      match r with
      | h :: t => (c :: h) :: t
      | [] => [[c]]

/-- `str.find(c)`: index of the first occurrence. -/
def pyFind (c : Char) (cs : List Char) : Option Nat := cs.findIdx? (· = c)

/-- `str.rfind(c)`: index of the last occurrence. -/
def pyRFind (c : Char) (cs : List Char) : Option Nat :=
  match cs.reverse.findIdx? (· = c) with
  | some i => some (cs.length - 1 - i)
  | none => none

/-- `s[a:b]` for `0 ≤ a ≤ b` (an empty slice when `b ≤ a`, as in Python). -/
def pySlice (cs : List Char) (a b : Nat) : List Char := (cs.drop a).take (b - a)

/-! ## The LLM response parser (`generate_flash_cards`, lines 180-211) -/

/-- Primary decoding path: locate the first `[` and last `]`; when both exist,
    `json.loads` the slice between them, otherwise `json.loads` the whole
    reply. `none` models the `json.JSONDecodeError` caught by the fallback. -/
def primary_decode (cs : List Char) : Option Json :=
  match pyFind '[' cs, pyRFind ']' cs with
  | some s, some e => json_loads (pySlice cs s (e + 1))
  | _, _ => json_loads cs

/-- One line of the fallback path:
    `line.strip().lstrip('- ').lstrip('• ')` — Python's `lstrip` removes any
    leading characters drawn from the given set. -/
def cleanLine (l : List Char) : String :=
  ⟨((pyStripL l).dropWhile (fun c => c == '-' || c == ' ')).dropWhile
      (fun c => c == '•' || c == ' ')⟩

/-- Fallback path (lines 191-200): walk the lines two at a time
    (`range(0, min(len(lines), count*2), 2)` with the `i+1 < len(lines)`
    guard), keeping a cleaned pair only when both members are non-empty. -/
def fallback_pairs : List (List Char) → Nat → List (String × String)
  | a :: b :: rest, Nat.succ c =>
    let front := cleanLine a
    let back := cleanLine b
    if front ≠ "" ∧ back ≠ "" then (front, back) :: fallback_pairs rest c
    else fallback_pairs rest c
  | _, _ => []

/-- The fallback builds `{"front": front, "back": back}` dicts. -/
def mkCardObj (p : String × String) : Json :=
  Json.obj [("front", Json.str p.1), ("back", Json.str p.2)]

/-- `cards_data` after the try/except block: the primary decode when
    `json.loads` succeeds, else the list of dicts built from the lines. -/
def parse_cards_data (content : String) (count : Nat) : Json :=
  match primary_decode content.data with
  | some j => j
  | none => Json.arr ((fallback_pairs (splitLines content.data) count).map mkCardObj)

/-- Python `dict` lookup for an object literal whose members were inserted in
    textual order: the last binding of a repeated key wins. -/
def lookupLast : List (String × Json) → String → Option Json
  | [], _ => none
  | (k, v) :: rest, key =>
    match lookupLast rest key with
    | some r => some r
    | none => if k = key then some v else none

/-- `card_data.get(key, "")`. -/
def objGet (fields : List (String × Json)) (key : String) (dflt : Json) : Json :=
  match lookupLast fields key with
  | some v => v
  | none => dflt

/-- Pydantic v1 coercion of a JSON value into a `str` field: strings pass
    through, numbers and booleans stringify, anything else is a validation
    error (raised inside the handler's `try`). -/
def pyFieldToStr : Json → Except String String
  | Json.str s => Except.ok s
  | Json.num raw => Except.ok raw
  | Json.bool b => Except.ok (if b then "True" else "False")
  | _ => Except.error "ValidationError: str type expected"

/-- One iteration of the card-building loop:
    `FlashCard(front=card_data.get("front", ""), back=card_data.get("back", ""), ...)`.
    A non-dict element has no `.get`, which raises `AttributeError`. -/
def build_card (j : Json) : Except String (String × String) :=
  match j with
  | Json.obj fields =>
    match pyFieldToStr (objGet fields "front" (Json.str "")),
          pyFieldToStr (objGet fields "back" (Json.str "")) with
    | Except.ok f, Except.ok b => Except.ok (f, b)
    | Except.error e, _ => Except.error e
    | _, Except.error e => Except.error e
  | _ => Except.error "AttributeError: object has no attribute get"

/-- `s[:count]` on a Python string. -/
def pyTruncStr (s : String) (count : Nat) : String := ⟨s.data.take count⟩

/-- The body of `for card_data in ...`: cards are built left to right and the
    first raised exception aborts the whole handler. -/
def build_cards_loop : List Json → Except String (List (String × String))
  | [] => Except.ok []
  | j :: rest =>
    match build_card j with
    | Except.error e => Except.error e
    | Except.ok p =>
      match build_cards_loop rest with
      | Except.error e => Except.error e
      | Except.ok ps => Except.ok (p :: ps)

/-- The loop `for card_data in cards_data[:request.count]` over whatever value
    `json.loads` produced. Lists slice and iterate normally; strings slice and
    then fail on `.get` at the first character; dicts and scalars do not even
    slice (`TypeError`). The error messages model the exceptions raised by the
    Python runtime, caught by the handler's outer `except`. -/
def build_cards (cardsData : Json) (count : Nat) : Except String (List (String × String)) :=
  match cardsData with
  | Json.arr xs => build_cards_loop (xs.take count)
  | Json.str s =>
    if (pyTruncStr s count).data.isEmpty then Except.ok []
    else Except.error "AttributeError: str object has no attribute get"
  | Json.obj _ => Except.error "TypeError: unhashable slice"
  | _ => Except.error "TypeError: object is not subscriptable"

/-- The whole response-parsing stage of `generate_flash_cards`, from the
    (already stripped) reply text to the `(front, back)` pairs of the cards,
    or the exception surfaced by the handler. -/
def parse_reply (content : String) (count : Nat) : Except String (List (String × String)) :=
  build_cards (parse_cards_data content count) count

/-! ## Data model -/

/-- A wall-clock instant as the server formats it (`datetime` fields used by
    `strftime`/`isoformat`). -/
structure PyDateTime where
  year : Nat
  month : Nat
  day : Nat
  hour : Nat
  minute : Nat
  second : Nat
deriving DecidableEq

/-- `strftime('%Y-%m-%d %H:%M:%S')` zero-padding. -/
def pad2 (n : Nat) : String := if n < 10 then "0" ++ toString n else toString n

/-- `%Y` zero-pads the year to four digits. -/
def pad4 (n : Nat) : String :=
  if n < 10 then "000" ++ toString n
  else if n < 100 then "00" ++ toString n
  else if n < 1000 then "0" ++ toString n
  else toString n

/-- `t.strftime('%Y-%m-%d %H:%M:%S')`. -/
def strftime_ymd_hms (t : PyDateTime) : String :=
  pad4 t.year ++ "-" ++ pad2 t.month ++ "-" ++ pad2 t.day ++ " " ++
  pad2 t.hour ++ ":" ++ pad2 t.minute ++ ":" ++ pad2 t.second

/-- `t.strftime('%Y%m%d_%H%M%S')`, used in export filenames. -/
def strftime_stamp (t : PyDateTime) : String :=
  pad4 t.year ++ pad2 t.month ++ pad2 t.day ++ "_" ++
  pad2 t.hour ++ pad2 t.minute ++ pad2 t.second

/-- `t.isoformat()` (to second precision, as the model keeps no microseconds). -/
def isoformat (t : PyDateTime) : String :=
  pad4 t.year ++ "-" ++ pad2 t.month ++ "-" ++ pad2 t.day ++ "T" ++
  pad2 t.hour ++ ":" ++ pad2 t.minute ++ ":" ++ pad2 t.second

/-- The `FlashCard` pydantic model. `created_at` is optional here because
    `export_to_csv` explicitly guards `if card.created_at else ''`. -/
structure FlashCard where
  id : String
  front : String
  back : String
  topic : String
  language : String
  created_at : Option PyDateTime
deriving DecidableEq

/-- The `FlashCardDeck` pydantic model. -/
structure FlashCardDeck where
  id : String
  name : String
  topic : String
  language : String
  cards : List FlashCard
  created_at : Option PyDateTime
deriving DecidableEq

/-- The `GenerateCardsRequest` pydantic model (`count` defaults to 5 at the
    HTTP layer; the spec fixes it as a positive integer). -/
structure GenerateCardsRequest where
  topic : String
  language : String
  count : Nat
  sutra_api_key : String

/-- The `GenerateCardsResponse` pydantic model. -/
structure GenerateCardsResponse where
  deck : FlashCardDeck
  success : Bool
  message : String
deriving DecidableEq

/-- The `ExportRequest` pydantic model. -/
structure ExportRequest where
  deck_ids : List String
  format : String

/-! ## Deck generation (`generate_flash_cards`, lines 132-231) -/

/-- The card-building loop: each accepted pair becomes a `FlashCard` stamped
    with the request's topic and language; `cardId i` stands for the `uuid4()`
    drawn for the i-th card and `now` for its creation instant. -/
def buildFlashCards (cardId : Nat → String) (topic language : String) (now : PyDateTime) :
    Nat → List (String × String) → List FlashCard
  | _, [] => []
  | i, p :: rest =>
    FlashCard.mk (cardId i) p.1 p.2 topic language (some now) ::
      buildFlashCards cardId topic language now (i + 1) rest

/-- `POST /api/generate-cards`. The LLM collaborator is an explicit outcome:
    `Except.error` is a raised exception from credential use or the network
    call, `Except.ok` the raw reply text. Any exception in the handler's `try`
    is wrapped into `HTTPException(500, "Error generating cards: ...")`,
    modelled as the `Except.error (500, ...)` branch. On success the deck
    (named `"{topic} - {language.title()}"`) is persisted and returned. -/
def generate_flash_cards (req : GenerateCardsRequest) (llm : Except String String)
    (cardId : Nat → String) (deckId : String) (now : PyDateTime) :
    Except (Nat × String) GenerateCardsResponse :=
  match llm with
  | Except.error e => Except.error (500, "Error generating cards: " ++ e)
  | Except.ok raw =>
    let content := pyStrip raw
    match parse_reply content req.count with
    | Except.error e => Except.error (500, "Error generating cards: " ++ e)
    | Except.ok pairs =>
      let cards := buildFlashCards cardId req.topic req.language now 0 pairs
      let deck := FlashCardDeck.mk deckId (req.topic ++ " - " ++ pyTitle req.language)
        req.topic req.language cards (some now)
      Except.ok (GenerateCardsResponse.mk deck true
        ("Successfully generated " ++ toString cards.length ++ " flash cards"))

/-! ## Deck listing (`get_all_decks`, lines 233-237) -/

/-- `GET /api/decks`: `db.flash_decks.find().to_list(1000)` hands back at most
    the first 1000 stored documents, each re-validated (identity on
    well-formed records). -/
def get_all_decks (store : List FlashCardDeck) : List FlashCardDeck :=
  store.take 1000

/-! ## Connectivity check (`test_sutra_api`, lines 98-130) -/

/-- Body of the `POST /api/test-sutra` response together with its HTTP status. -/
structure SutraTestResult where
  status : Nat
  success : Bool
  message : String
  test_response : Option String
deriving DecidableEq

/-- `POST /api/test-sutra`. `request.get("api_key")` is `apiKey` (absent key ↦
    `none`); Python's `if not sutra_api_key` also treats the empty string as
    missing. The `HTTPException(400)` raised for a missing key is caught by the
    handler's own `except Exception` (`str(e) = "400: API key is required"`),
    so every outcome is a 200 response. -/
def test_sutra_api (apiKey : Option String) (llm : Except String String) : SutraTestResult :=
  if apiKey.getD "" = "" then
    SutraTestResult.mk 200 false "Sutra API connection failed: 400: API key is required" none
  else
    match llm with
    | Except.ok content =>
      SutraTestResult.mk 200 true "Sutra API connection successful" (some content)
    | Except.error e =>
      SutraTestResult.mk 200 false ("Sutra API connection failed: " ++ e) none

/-! ## Export renderers (lines 289-384) -/

/-- The JSON export document (`export_data` of `export_to_json`). -/
structure JsonExportDoc where
  export_date : String
  total_decks : Nat
  total_cards : Nat
  decks : List FlashCardDeck
deriving DecidableEq

/-- A reportlab story element (styles kept by name; geometry of spacers is
    presentation detail outside the model). -/
inductive PdfElem where
  | para (style : String) (text : String)
  | spacer
  | pageBreak
deriving DecidableEq

/-- The body of an export `Response`, per format. -/
inductive ExportPayload where
  | jsonPayload (doc : JsonExportDoc)
  | csvPayload (rows : List (List String))
  | pdfPayload (story : List PdfElem)
deriving DecidableEq

/-- An export `Response`: payload, MIME type, and the attachment filename from
    the `Content-Disposition` header. -/
structure ExportResponse where
  payload : ExportPayload
  media_type : String
  filename : String
deriving DecidableEq

/-- `export_to_json` (lines 289-304). -/
def export_to_json (decks : List FlashCardDeck) (now : PyDateTime) : ExportResponse :=
  ExportResponse.mk
    (ExportPayload.jsonPayload
      (JsonExportDoc.mk (isoformat now) decks.length
        (decks.map (fun d => d.cards.length)).sum decks))
    "application/json"
    ("flashcards_export_" ++ strftime_stamp now ++ ".json")

/-- The CSV header row written first. -/
def csvHeader : List String :=
  ["Deck Name", "Topic", "Language", "Card Front", "Card Back", "Created Date"]

/-- One CSV data row: the deck's metadata repeated, then the card's faces and
    its creation date (`strftime` if present, `''` otherwise). -/
def csvCardRow (deck : FlashCardDeck) (card : FlashCard) : List String :=
  [deck.name, deck.topic, deck.language, card.front, card.back,
   match card.created_at with
   | some t => strftime_ymd_hms t
   | none => ""]

/-- The nested `for deck: for card: writer.writerow(...)` loops. -/
def csvBodyRows : List FlashCardDeck → List (List String)
  | [] => []
  | d :: rest => d.cards.map (csvCardRow d) ++ csvBodyRows rest

/-- All rows written by `export_to_csv`, header first. -/
def csvRows (decks : List FlashCardDeck) : List (List String) :=
  csvHeader :: csvBodyRows decks

/-- `export_to_csv` (lines 306-333). -/
def export_to_csv (decks : List FlashCardDeck) (now : PyDateTime) : ExportResponse :=
  ExportResponse.mk (ExportPayload.csvPayload (csvRows decks)) "text/csv"
    ("flashcards_export_" ++ strftime_stamp now ++ ".csv")

/-- The per-card story blocks of a deck (`Card {i+1}:`, front, back, spacer). -/
def pdfCardBlocks : Nat → List FlashCard → List PdfElem
  | _, [] => []
  | i, c :: rest =>
    PdfElem.para "Heading2" ("Card " ++ toString (i + 1) ++ ":") ::
    PdfElem.para "CardFront" ("Front: " ++ c.front) ::
    PdfElem.para "CardBack" ("Back: " ++ c.back) ::
    PdfElem.spacer ::
    pdfCardBlocks (i + 1) rest

/-- The story section of one deck (heading, metadata, card count, cards). -/
def pdfDeckSection (deck : FlashCardDeck) : List PdfElem :=
  PdfElem.para "CustomHeading" ("Deck: " ++ deck.name) ::
  PdfElem.para "Normal" ("Topic: " ++ deck.topic ++ " | Language: " ++ pyTitle deck.language) ::
  PdfElem.para "Normal" ("Cards: " ++ toString deck.cards.length) ::
  PdfElem.spacer ::
  pdfCardBlocks 0 deck.cards

/-- Deck sections with a page break before each deck after the first. -/
def pdfDeckSections : Nat → List FlashCardDeck → List PdfElem
  | _, [] => []
  | idx, d :: rest =>
    (if idx > 0 then [PdfElem.pageBreak] else []) ++ pdfDeckSection d ++
      pdfDeckSections (idx + 1) rest

/-- `export_to_pdf` (lines 335-384): title block then deck sections. -/
def export_to_pdf (decks : List FlashCardDeck) (now : PyDateTime) : ExportResponse :=
  ExportResponse.mk
    (ExportPayload.pdfPayload
      (PdfElem.para "CustomTitle" "Flash Cards Export" ::
       PdfElem.para "Normal" ("Generated on: " ++ strftime_ymd_hms now) ::
       PdfElem.para "Normal" ("Total Decks: " ++ toString decks.length) ::
       PdfElem.para "Normal"
         ("Total Cards: " ++ toString (decks.map (fun d => d.cards.length)).sum) ::
       PdfElem.spacer ::
       pdfDeckSections 0 decks))
    "application/pdf"
    ("flashcards_export_" ++ strftime_stamp now ++ ".pdf")

/-! ## Export endpoint (`export_decks`, lines 255-287) -/

/-- Outcome of `POST /api/export`: a rendered response, or an
    `HTTPException` with status and detail. -/
inductive ExportOutcome where
  | response (r : ExportResponse)
  | httpError (status : Nat) (detail : String)
deriving DecidableEq

/-- The id-resolution loop (lines 262-266): `find_one({"id": deck_id})` for
    each requested id, appending only the ids that match a stored document. -/
def resolve_decks (store : List FlashCardDeck) (ids : List String) : List FlashCardDeck :=
  ids.filterMap (fun i => store.find? (fun d => d.id = i))

/-- `POST /api/export`. The whole handler body sits in a `try` whose
    `except Exception` also catches the handler's own `HTTPException`s
    (they subclass `Exception`), re-raising them as
    `HTTPException(500, "Export failed: " + str(e))` with
    `str(e) = "{status_code}: {detail}"`. -/
def export_decks (store : List FlashCardDeck) (req : ExportRequest) (now : PyDateTime) :
    ExportOutcome :=
  let decks_data : List FlashCardDeck :=
    match req.deck_ids with
    | [] => store.take 1000
    | _ :: _ => resolve_decks store req.deck_ids
  let tryBody : Except (Nat × String) ExportResponse :=
    if decks_data.isEmpty then Except.error (404, "No decks found to export")
    else
      let fmt := pyLower req.format
      if fmt = "json" then Except.ok (export_to_json decks_data now)
      else if fmt = "csv" then Except.ok (export_to_csv decks_data now)
      else if fmt = "pdf" then Except.ok (export_to_pdf decks_data now)
      else Except.error (400, "Unsupported export format")
  match tryBody with
  | Except.ok resp => ExportOutcome.response resp
  | Except.error (code, detail) =>
    ExportOutcome.httpError 500 ("Export failed: " ++ toString code ++ ": " ++ detail)

/-- Dispatch of a lower-cased valid format to its renderer, as the
    `if/elif` chain of lines 277-282 does. -/
def renderFormat (lf : String) (decks : List FlashCardDeck) (now : PyDateTime) :
    ExportResponse :=
  if lf = "json" then export_to_json decks now
  else if lf = "csv" then export_to_csv decks now
  else export_to_pdf decks now

/-! ## Values and specification predicates used by the theorems -/

/-- Consecutive pairing of lines, `(line 2i, line 2i+1)`. -/
def pairUp : List (List Char) → List (List Char × List Char)
  | a :: b :: rest => (a, b) :: pairUp rest
  | _ => []

/-- A decoded array element that carries `(front, back)` string fields `p`
    (possibly among other fields; missing fields default to `""` via `.get`). -/
def isCardObjFor (j : Json) (p : String × String) : Prop :=
  ∃ fields, j = Json.obj fields
    ∧ objGet fields "front" (Json.str "") = Json.str p.1
    ∧ objGet fields "back" (Json.str "") = Json.str p.2

/-- A fixed wall-clock instant used for concrete scenarios. -/
def t0 : PyDateTime := PyDateTime.mk 2024 1 2 3 4 5

/-- A stored deck record used as a duplicated filler in the listing scenario. -/
def deckRecA : FlashCardDeck := FlashCardDeck.mk "deck-a" "A" "T" "english" [] none

/-- A stored deck record distinct from `deckRecA`. -/
def deckRecB : FlashCardDeck := FlashCardDeck.mk "deck-b" "B" "T" "english" [] none

/-- A stored deck record used in the export scenarios. -/
def deckRecC : FlashCardDeck := FlashCardDeck.mk "deck-c" "C" "T" "english" [] none

/-- A card with a creation date, for the CSV scenario. -/
def cardW : FlashCard := FlashCard.mk "card-w" "front-w" "back-w" "T" "english" (some t0)

/-- A deck holding `cardW`, for the CSV scenario. -/
def deckW : FlashCardDeck := FlashCardDeck.mk "deck-w" "W" "T" "english" [cardW] (some t0)

/-- The LLM reply of the spec's Mars scenario. -/
def marsReply : String :=
  "[\x7b\"front\": \"Red Planet\", \"back\": \"Nickname for Mars\"\x7d, \x7b\"front\": \"Olympus Mons\", \"back\": \"Tallest volcano\"\x7d]"

/-! ## Shared lemmas -/

/-- A canonical `{"front": f, "back": b}` dict rebuilds exactly its pair. -/
theorem build_card_canonical (p : String × String) :
    build_card (mkCardObj p) = Except.ok p := rfl

/-- The card loop maps canonical fallback dicts back to their pairs. -/
theorem build_cards_loop_canonical (ps : List (String × String)) :
    build_cards_loop (ps.map mkCardObj) = Except.ok ps := by
  induction ps with
  | nil => rfl
  | cons p rest ih => simp [build_cards_loop, build_card_canonical p, ih]

/-- A successful card loop yields one card per processed element. -/
theorem build_cards_loop_length :
    ∀ {l : List Json} {L : List (String × String)},
      build_cards_loop l = Except.ok L → L.length = l.length := by
  intro l
  induction l with
  | nil => intro L h; cases h; rfl
  | cons j rest ih =>
    intro L h
    unfold build_cards_loop at h
    cases hj : build_card j with
    | error e => rw [hj] at h; cases h
    | ok p =>
      rw [hj] at h
      cases hr : build_cards_loop rest with
      | error e => rw [hr] at h; cases h
      | ok ps =>
        rw [hr] at h
        cases h
        simp [ih hr]

/-- If each element builds to its paired card, the loop succeeds with
    exactly those cards. -/
theorem build_cards_loop_of_forall :
    ∀ {l : List Json} {L : List (String × String)},
      List.Forall₂ (fun j p => build_card j = Except.ok p) l L →
      build_cards_loop l = Except.ok L := by
  intro l L h
  induction h with
  | nil => rfl
  | cons h1 _ ih => simp [build_cards_loop, h1, ih]

/-- Elements carrying string front/back fields build to their pair. -/
theorem build_card_of_isCardObjFor {j : Json} {p : String × String}
    (h : isCardObjFor j p) : build_card j = Except.ok p := by
  obtain ⟨fields, rfl, hf, hb⟩ := h
  simp [build_card, hf, hb, pyFieldToStr]

/-- Whatever parsing path produced the card data, the card list never exceeds
    the requested count. -/
theorem parse_reply_length_le (c : String) (n : Nat) (L : List (String × String))
    (h : parse_reply c n = Except.ok L) : L.length ≤ n := by
  rw [parse_reply] at h
  cases hp : parse_cards_data c n with
  | arr xs =>
    rw [hp] at h
    simp only [build_cards] at h
    have hlen := build_cards_loop_length h
    rw [hlen, List.length_take]
    exact Nat.min_le_left _ _
  | str s =>
    rw [hp] at h
    simp only [build_cards] at h
    split at h
    · cases h
      exact Nat.zero_le _
    · cases h
  | obj fields => rw [hp] at h; simp only [build_cards] at h; cases h
  | num r => rw [hp] at h; simp only [build_cards] at h; cases h
  | bool b => rw [hp] at h; simp only [build_cards] at h; cases h
  | null => rw [hp] at h; simp only [build_cards] at h; cases h

/-! ## Claims -/

/-- C1: an export request whose resolved deck set is empty is claimed to get a
    404. The code raises `HTTPException(404)` inside its own `try`, whose
    `except Exception` re-wraps it, so the observable response is a 500 whose
    detail merely quotes the intended 404; no file is produced. This theorem
    evaluates the handler at the failing input (`deck_ids: []`, `format:
    "csv"`, zero stored decks). -/
theorem C1_empty_export_gives_500 :
    export_decks [] (ExportRequest.mk [] "csv") t0 =
      ExportOutcome.httpError 500 "Export failed: 404: No decks found to export"
    ∧ (500 : Nat) ≠ 404 := by
  exact ⟨rfl, by decide⟩

/-- C2: an unsupported format is claimed to be rejected with a 400 before any
    rendering. Rendering is indeed never reached, but the
    `HTTPException(400)` is swallowed by the handler's own `except Exception`
    and resurfaces as a 500. Evaluated at a store with one deck and format
    `"xml"`. -/
theorem C2_unknown_format_gives_500 :
    export_decks [deckRecC] (ExportRequest.mk [] "xml") t0 =
      ExportOutcome.httpError 500 "Export failed: 400: Unsupported export format"
    ∧ (500 : Nat) ≠ 400 := by
  exact ⟨by decide, by decide⟩

/-- C7: the connectivity check always answers 200; a missing (or empty) api
    key and a throwing LLM call are both reported in the body with
    `success: false`, never as an error status. -/
theorem C7_test_sutra_always_200 (apiKey : Option String) (llm : Except String String) :
    (test_sutra_api apiKey llm).status = 200
    ∧ (apiKey.getD "" = "" → (test_sutra_api apiKey llm).success = false)
    ∧ (∀ e, llm = Except.error e → (test_sutra_api apiKey llm).success = false) := by
  refine ⟨?_, ?_, ?_⟩
  · by_cases hk : apiKey.getD "" = ""
    · simp [test_sutra_api, hk]
    · cases llm <;> simp [test_sutra_api, hk]
  · intro hk
    simp [test_sutra_api, hk]
  · intro e he
    subst he
    by_cases hk : apiKey.getD "" = "" <;> simp [test_sutra_api, hk]

/-- C7 witness: a request with no api key and a throwing LLM call still gets a
    200 whose body encodes the failure. -/
theorem C7_witness :
    (test_sutra_api none (Except.error "boom")).status = 200
    ∧ (test_sutra_api none (Except.error "boom")).success = false := by
  have h := C7_test_sutra_always_200 none (Except.error "boom")
  exact ⟨h.1, h.2.1 rfl⟩

/-- C4 counterexample: `find().to_list(1000)` caps the listing, so with 1001
    stored decks the last one is persisted but absent from the response. -/
theorem C4_counterexample :
    deckRecB ∈ List.replicate 1000 deckRecA ++ [deckRecB]
    ∧ deckRecB ∉ get_all_decks (List.replicate 1000 deckRecA ++ [deckRecB]) := by
  constructor
  · exact List.mem_append_right _ (List.mem_singleton_self _)
  · intro hmem
    have h1 : get_all_decks (List.replicate 1000 deckRecA ++ [deckRecB]) =
        List.replicate 1000 deckRecA := by
      have h2 := List.take_left (List.replicate 1000 deckRecA) [deckRecB]
      rw [List.length_replicate] at h2
      rw [get_all_decks]
      exact h2
    rw [h1] at hmem
    have h := List.eq_of_mem_replicate hmem
    exact absurd (congrArg FlashCardDeck.id h) (by decide)

/-- C4 (amended): the listing returns the first 1000 stored decks, so every
    persisted deck appears whenever the store holds at most 1000 decks. -/
theorem C4_list_all_upto_1000 (store : List FlashCardDeck) (h : store.length ≤ 1000) :
    get_all_decks store = store ∧ ∀ d ∈ store, d ∈ get_all_decks store := by
  have heq : get_all_decks store = store := by
    rw [get_all_decks]
    exact List.take_of_length_le h
  refine ⟨heq, fun d hd => ?_⟩
  rw [heq]
  exact hd

/-- C4 witness: a single stored deck is listed. -/
theorem C4_witness : deckRecA ∈ get_all_decks [deckRecA] :=
  (C4_list_all_upto_1000 [deckRecA] (by decide)).2 deckRecA (List.mem_singleton_self _)

/-- Each card of each exported deck contributes its row to the CSV body. -/
theorem csvCardRow_mem_body {decks : List FlashCardDeck} {d : FlashCardDeck}
    (hd : d ∈ decks) {c : FlashCard} (hc : c ∈ d.cards) :
    csvCardRow d c ∈ csvBodyRows decks := by
  induction decks with
  | nil => cases hd
  | cons e rest ih =>
    rcases List.mem_cons.mp hd with h | h
    · subst h
      exact List.mem_append_left _ (List.mem_map_of_mem _ hc)
    · exact List.mem_append_right _ (ih h)

/-- The CSV body holds exactly one row per card. -/
theorem csvBodyRows_length (decks : List FlashCardDeck) :
    (csvBodyRows decks).length = (decks.map (fun d => d.cards.length)).sum := by
  induction decks with
  | nil => rfl
  | cons d rest ih => simp [csvBodyRows, ih]

/-- C9: the CSV rendering is one header row followed by exactly one row per
    card (total rows = 1 + sum of card counts), each card row repeating its
    deck's name, topic and language and formatting the creation date as
    `YYYY-MM-DD HH:MM:SS`, or `""` when absent. -/
theorem C9_csv_shape (decks : List FlashCardDeck) (now : PyDateTime) :
    (export_to_csv decks now).payload = ExportPayload.csvPayload (csvRows decks)
    ∧ csvRows decks = csvHeader :: csvBodyRows decks
    ∧ (csvRows decks).length = 1 + (decks.map (fun d => d.cards.length)).sum
    ∧ (∀ d ∈ decks, ∀ c ∈ d.cards, csvCardRow d c ∈ csvRows decks)
    ∧ (∀ d c, csvCardRow d c =
        [d.name, d.topic, d.language, c.front, c.back,
         match c.created_at with
         | some t => strftime_ymd_hms t
         | none => ""]) := by
  refine ⟨rfl, rfl, ?_, ?_, fun d c => rfl⟩
  · rw [csvRows, List.length_cons, csvBodyRows_length]
    omega
  · intro d hd c hc
    exact List.mem_cons_of_mem _ (csvCardRow_mem_body hd hc)

/-- C9 witness: the single card of a one-deck export appears as a row of the
    rendered CSV. -/
theorem C9_witness : csvCardRow deckW cardW ∈ csvRows [deckW] :=
  (C9_csv_shape [deckW] t0).2.2.2.1 deckW (List.mem_singleton_self _) cardW
    (List.mem_singleton_self _)

/-- C10: for a non-empty `deck_ids` list, unknown ids are silently skipped —
    the handler renders exactly the requested ids that resolve to stored
    decks, in request order (`resolve_decks`), and the request succeeds
    whenever at least one id resolves (given one of the three supported
    formats, without which no document exists at all). -/
theorem C10_export_resolved_subset (store : List FlashCardDeck) (ids : List String)
    (fmt : String) (now : PyDateTime) (hids : ids ≠ [])
    (hres : resolve_decks store ids ≠ [])
    (hfmt : pyLower fmt = "json" ∨ pyLower fmt = "csv" ∨ pyLower fmt = "pdf") :
    export_decks store (ExportRequest.mk ids fmt) now =
      ExportOutcome.response (renderFormat (pyLower fmt) (resolve_decks store ids) now) := by
  cases ids with
  | nil => exact absurd rfl hids
  | cons i rest =>
    have hne : (resolve_decks store (i :: rest)).isEmpty = false := by
      cases h : resolve_decks store (i :: rest) with
      | nil => exact absurd h hres
      | cons a l => rfl
    rcases hfmt with h | h | h <;>
      simp [export_decks, renderFormat, hne, h]

/-- C10 witness: a request for one stored id in CSV format succeeds and
    renders exactly that deck. -/
theorem C10_witness :
    export_decks [deckRecC] (ExportRequest.mk ["deck-c"] "csv") t0 =
      ExportOutcome.response
        (renderFormat (pyLower "csv") (resolve_decks [deckRecC] ["deck-c"]) t0) :=
  C10_export_resolved_subset [deckRecC] ["deck-c"] "csv" t0 (by simp) (by decide)
    (Or.inr (Or.inl rfl))

/-- When the first `2*count` lines all clean to non-empty strings, the
    line-walking loop accepts every examined pair: it returns exactly the
    cleaned consecutive pairs of those lines, `count` of them. -/
theorem fallback_pairs_all_nonempty :
    ∀ (count : Nat) (lines : List (List Char)),
      2 * count ≤ lines.length →
      (∀ l ∈ lines.take (2 * count), cleanLine l ≠ "") →
      fallback_pairs lines count =
        (pairUp (lines.take (2 * count))).map (fun p => (cleanLine p.1, cleanLine p.2))
      ∧ (fallback_pairs lines count).length = count := by
  intro count
  induction count with
  | zero =>
    intro lines _ _
    constructor
    · cases lines with
      | nil => rfl
      | cons a rest => cases rest with
        | nil => rfl
        | cons b rest2 => rfl
    · cases lines with
      | nil => rfl
      | cons a rest => cases rest with
        | nil => rfl
        | cons b rest2 => rfl
  | succ c ih =>
    intro lines hlen hne
    have h2 : 2 * Nat.succ c = 2 * c + 2 := by omega
    cases lines with
    | nil => simp at hlen
    | cons a rest =>
      cases rest with
      | nil => rw [h2] at hlen; simp at hlen
      | cons b rest2 =>
        have htake : (a :: b :: rest2).take (2 * Nat.succ c) =
            a :: b :: rest2.take (2 * c) := by
          rw [h2]
          rfl
        have ha : cleanLine a ≠ "" := by
          apply hne
          rw [htake]
          exact List.mem_cons_self _ _
        have hb : cleanLine b ≠ "" := by
          apply hne
          rw [htake]
          exact List.mem_cons_of_mem _ (List.mem_cons_self _ _)
        have hlen2 : 2 * c ≤ rest2.length := by
          simp [h2] at hlen
          omega
        have hne2 : ∀ l ∈ rest2.take (2 * c), cleanLine l ≠ "" := by
          intro l hl
          apply hne
          rw [htake]
          exact List.mem_cons_of_mem _ (List.mem_cons_of_mem _ hl)
        obtain ⟨ihe, ihl⟩ := ih rest2 hlen2 hne2
        have hstep : fallback_pairs (a :: b :: rest2) (Nat.succ c) =
            (cleanLine a, cleanLine b) :: fallback_pairs rest2 c := by
          rw [fallback_pairs]
          rw [if_pos ⟨ha, hb⟩]
        refine ⟨?_, ?_⟩
        · rw [hstep, htake, ihe]
          rfl
        · rw [hstep, List.length_cons, ihl]

/-- C5 counterexample: the reply `"A\n\nB\nC"` has 3 non-empty lines (≥ 2·1)
    and no JSON array, yet with `count = 1` the line heuristic returns no
    pair at all — the loop examines lines pairwise including the empty
    second line, rejects the pair `("A", "")`, and the examined-pair budget
    is exhausted. -/
theorem C5_counterexample :
    parse_reply "A\n\nB\nC" 1 = Except.ok []
    ∧ 2 * 1 ≤ ((splitLines "A\n\nB\nC".data).filter (fun l => !l.isEmpty)).length := by
  exact ⟨rfl, by decide⟩

/-- C5 (amended): when primary JSON decoding fails and the first `2N` lines
    of the reply are all non-empty after cleaning (the reply having at least
    `2N` lines), the parser returns exactly `N` pairs via the line heuristic:
    the consecutive line pairs with `strip()` and the bullet markers
    `'- '`/`'• '` removed. Pairs with an empty cleaned member are skipped, so
    `2N` non-empty lines interleaved with blank ones can yield fewer. -/
theorem C5_line_fallback (content : String) (count : Nat)
    (hdec : primary_decode content.data = none)
    (hlen : 2 * count ≤ (splitLines content.data).length)
    (hne : ∀ l ∈ (splitLines content.data).take (2 * count), cleanLine l ≠ "") :
    parse_reply content count =
      Except.ok ((pairUp ((splitLines content.data).take (2 * count))).map
        (fun p => (cleanLine p.1, cleanLine p.2)))
    ∧ ((pairUp ((splitLines content.data).take (2 * count))).map
        (fun p => (cleanLine p.1, cleanLine p.2))).length = count := by
  obtain ⟨heq, hcnt⟩ := fallback_pairs_all_nonempty count (splitLines content.data) hlen hne
  have hdata : parse_cards_data content count =
      Json.arr ((fallback_pairs (splitLines content.data) count).map mkCardObj) := by
    rw [parse_cards_data, hdec]
  have htk : ((fallback_pairs (splitLines content.data) count).map mkCardObj).take count =
      (fallback_pairs (splitLines content.data) count).map mkCardObj := by
    apply List.take_of_length_le
    rw [List.length_map, hcnt]
  constructor
  · rw [parse_reply, hdata]
    simp only [build_cards]
    rw [htk, build_cards_loop_canonical, heq]
  · rw [← heq, hcnt]

/-- C5 witness: a bulleted four-line reply with `count = 2` yields exactly the
    two cleaned pairs. -/
theorem C5_witness :
    parse_reply "- Q1\nA1\n• Q2\nA2" 2 = Except.ok [("Q1", "A1"), ("Q2", "A2")] := by
  have h := (C5_line_fallback "- Q1\nA1\n• Q2\nA2" 2 rfl (by decide) (by decide)).1
  exact h.trans (by rfl)

/-- C6: a reply whose primary decode is a JSON array of at least `N` elements
    carrying string front/back fields yields exactly the first `N` pairs, in
    order, values unchanged — and, whichever path produced the card data, the
    result is truncated to at most the requested count. -/
theorem C6_json_array_exact (content : String) (count : Nat) (objs : List Json)
    (pairs : List (String × String))
    (hdec : primary_decode content.data = some (Json.arr objs))
    (hlen : count ≤ objs.length)
    (hobjs : List.Forall₂ isCardObjFor (objs.take count) pairs) :
    parse_reply content count = Except.ok pairs
    ∧ pairs.length = count
    ∧ ∀ (c : String) (n : Nat) (L : List (String × String)),
        parse_reply c n = Except.ok L → L.length ≤ n := by
  refine ⟨?_, ?_, parse_reply_length_le⟩
  · have hdata : parse_cards_data content count = Json.arr objs := by
      rw [parse_cards_data, hdec]
    rw [parse_reply, hdata]
    simp only [build_cards]
    exact build_cards_loop_of_forall
      (hobjs.imp fun a b h => build_card_of_isCardObjFor h)
  · have hl := hobjs.length_eq
    rw [List.length_take] at hl
    rw [← hl]
    exact Nat.min_eq_left hlen

/-- C6 witness: a one-element JSON array reply with `count = 1` yields that
    pair unchanged. -/
theorem C6_witness :
    parse_reply "[\x7b\"front\": \"A\", \"back\": \"B\"\x7d]" 1 = Except.ok [("A", "B")] :=
  (C6_json_array_exact "[\x7b\"front\": \"A\", \"back\": \"B\"\x7d]" 1
    [Json.obj [("front", Json.str "A"), ("back", Json.str "B")]] [("A", "B")]
    rfl (by decide)
    (List.Forall₂.cons ⟨[("front", Json.str "A"), ("back", Json.str "B")], rfl, rfl, rfl⟩
      List.Forall₂.nil)).1

/-- C3 counterexample: a reply that is valid JSON but a JSON object — not an
    array — does not degrade to empty-string cards: slicing the decoded dict
    (`cards_data[:count]`) raises, the handler's `except` turns it into a 500,
    and the whole generation request fails. -/
theorem C3_counterexample :
    generate_flash_cards (GenerateCardsRequest.mk "T" "english" 5 "key")
        (Except.ok "\x7b\"front\": \"a\", \"back\": \"b\"\x7d")
        (fun i => toString i) "deck-1" t0 =
      Except.error (500, "Error generating cards: TypeError: unhashable slice") := rfl

/-- C3 (amended): a decoded JSON array whose object elements lack the
    `"front"`/`"back"` fields yields cards whose fields default to the empty
    string, without failing; but a reply decoding to a JSON object (valid
    JSON, not an array) does not degrade — the card-building loop raises and
    the request fails. -/
theorem C3_missing_fields_default_empty :
    (∀ (content : String) (count : Nat) (objs : List Json),
      parse_cards_data content count = Json.arr objs →
      (∀ j ∈ objs.take count, ∃ fields, j = Json.obj fields
        ∧ lookupLast fields "front" = none ∧ lookupLast fields "back" = none) →
      parse_reply content count =
        Except.ok (List.replicate (objs.take count).length ("", "")))
    ∧ (∀ (content : String) (count : Nat) (fields : List (String × Json)),
      primary_decode content.data = some (Json.obj fields) →
      parse_reply content count = Except.error "TypeError: unhashable slice") := by
  constructor
  · intro content count objs hp hmissing
    have hloop : ∀ (l : List Json),
        (∀ j ∈ l, ∃ fields, j = Json.obj fields
          ∧ lookupLast fields "front" = none ∧ lookupLast fields "back" = none) →
        build_cards_loop l = Except.ok (List.replicate l.length ("", "")) := by
      intro l
      induction l with
      | nil => intro _; rfl
      | cons j rest ih =>
        intro hall
        obtain ⟨fields, rfl, hf, hb⟩ := hall _ (List.mem_cons_self _ _)
        have hcard : build_card (Json.obj fields) = Except.ok ("", "") := by
          simp [build_card, objGet, hf, hb, pyFieldToStr]
        have hrest := ih fun j hj => hall j (List.mem_cons_of_mem _ hj)
        simp [build_cards_loop, hcard, hrest, List.replicate_succ]
    rw [parse_reply, hp]
    simp only [build_cards]
    exact hloop _ hmissing
  · intro content count fields hp
    rw [parse_reply, parse_cards_data, hp]
    rfl

/-- C3 witness: a reply holding a one-element array of empty objects yields
    one card with empty-string front and back. -/
theorem C3_witness : parse_reply "[\x7b\x7d]" 1 = Except.ok [("", "")] := by
  have h := C3_missing_fields_default_empty.1 "[\x7b\x7d]" 1 [Json.obj []] rfl
    (by
      intro j hj
      have hj2 : j = Json.obj [] := by
        simpa using hj
      exact ⟨[], hj2, rfl, rfl⟩)
  exact h.trans (by rfl)

/-- Every card built by the generation loop is stamped with the request's
    topic and language. -/
theorem buildFlashCards_stamped (cardId : Nat → String) (topic language : String)
    (now : PyDateTime) :
    ∀ (i : Nat) (ps : List (String × String)) (c : FlashCard),
      c ∈ buildFlashCards cardId topic language now i ps →
      c.topic = topic ∧ c.language = language := by
  intro i ps
  induction ps generalizing i with
  | nil => intro c hc; cases hc
  | cons p rest ih =>
    intro c hc
    rcases List.mem_cons.mp hc with h | h
    · subst h
      exact ⟨rfl, rfl⟩
    · exact ih (i + 1) c h

/-- C8: every successfully generated deck is named
    `"{topic} - {language.title()}"` and each of its cards is stamped with
    the request's topic and language; in particular the Mars scenario
    (`topic: Mars`, `language: english`, `count: 3`, two-object JSON reply)
    yields the deck `"Mars - English"` holding exactly those two cards,
    each stamped `topic="Mars"`, `language="english"`. -/
theorem C8_deck_name_and_stamps :
    (∀ (req : GenerateCardsRequest) (llm : Except String String) (cardId : Nat → String)
        (deckId : String) (now : PyDateTime) (resp : GenerateCardsResponse),
      generate_flash_cards req llm cardId deckId now = Except.ok resp →
      resp.deck.name = req.topic ++ " - " ++ pyTitle req.language
      ∧ ∀ c ∈ resp.deck.cards, c.topic = req.topic ∧ c.language = req.language)
    ∧ generate_flash_cards (GenerateCardsRequest.mk "Mars" "english" 3 "key")
        (Except.ok marsReply) (fun i => toString i) "deck-1" t0 =
      Except.ok (GenerateCardsResponse.mk
        (FlashCardDeck.mk "deck-1" "Mars - English" "Mars" "english"
          [FlashCard.mk "0" "Red Planet" "Nickname for Mars" "Mars" "english" (some t0),
           FlashCard.mk "1" "Olympus Mons" "Tallest volcano" "Mars" "english" (some t0)]
          (some t0))
        true "Successfully generated 2 flash cards") := by
  constructor
  · intro req llm cardId deckId now resp h
    cases llm with
    | error e => cases h
    | ok raw =>
      simp only [generate_flash_cards] at h
      cases hp : parse_reply (pyStrip raw) req.count with
      | error e => rw [hp] at h; cases h
      | ok pairs =>
        rw [hp] at h
        cases h
        exact ⟨rfl, fun c hc =>
          buildFlashCards_stamped cardId req.topic req.language now 0 pairs c hc⟩
  · rfl

/-- C8 witness: the Mars scenario's deck satisfies the naming rule. -/
theorem C8_witness :
    (GenerateCardsResponse.mk
      (FlashCardDeck.mk "deck-1" "Mars - English" "Mars" "english"
        [FlashCard.mk "0" "Red Planet" "Nickname for Mars" "Mars" "english" (some t0),
         FlashCard.mk "1" "Olympus Mons" "Tallest volcano" "Mars" "english" (some t0)]
        (some t0))
      true "Successfully generated 2 flash cards").deck.name =
      "Mars" ++ " - " ++ pyTitle "english" :=
  (C8_deck_name_and_stamps.1 (GenerateCardsRequest.mk "Mars" "english" 3 "key")
    (Except.ok marsReply) (fun i => toString i) "deck-1" t0
    (GenerateCardsResponse.mk
      (FlashCardDeck.mk "deck-1" "Mars - English" "Mars" "english"
        [FlashCard.mk "0" "Red Planet" "Nickname for Mars" "Mars" "english" (some t0),
         FlashCard.mk "1" "Olympus Mons" "Tallest volcano" "Mars" "english" (some t0)]
        (some t0))
      true "Successfully generated 2 flash cards")
    C8_deck_name_and_stamps.2).1

end FlashServer
